import Mathlib

/-!
Verification of the recording/processing core of `voice_to_midjourney.py`.

The embedding translates the stateful Qt application into a state machine:
each Python handler (`toggle_recording`, `start_recording`, `stop_recording`,
`process_audio`, `show_error`, `submit_to_midjourney`, the tail of
`AudioRecorder.run`, `ProcessingThread.run`, `ArtDisplayWidget.set_image`,
`load_config`) becomes a Lean function on an explicit `MainWindow` state, and
the asynchronous completions (input-stream callback, recorder thread finishing,
processing thread finishing, modal-dialog resolution) become events of a step
function.  The two external services (the whisper model and the OpenAI chat
client) are black-box parameters, as functions returning `Except`.
-/

/-- One chunk of audio frames delivered by the input-stream callback
(`indata.copy()` inside `AudioRecorder.run`); samples as integers. -/
abbrev AudioChunk := List Int

/-- A finalized audio buffer: `np.concatenate` of the collected chunks. -/
abbrev AudioBuffer := List Int

/-- The mutable state of an `AudioRecorder` instance: the chunk queue
(`self.audio_queue`, FIFO), the `self.is_recording` flag, and whether the
`run` thread is still live (`thread_active`; set by `self.start()` in
`start_recording`, cleared when `run` returns). -/
structure AudioRecorder where
  audio_queue : List AudioChunk
  is_recording : Bool
  thread_active : Bool
deriving DecidableEq, Repr

/-- `AudioRecorder.__init__`: empty queue, not recording, thread not started. -/
def AudioRecorder.mk0 : AudioRecorder :=
  { audio_queue := [], is_recording := false, thread_active := false }

/-- The stream callback in `AudioRecorder.run`: `self.audio_queue.put(indata.copy())`
appends the arriving chunk at the back of the FIFO queue. -/
def AudioRecorder.callback (r : AudioRecorder) (indata : AudioChunk) : AudioRecorder :=
  { r with audio_queue := r.audio_queue ++ [indata] }

/-- `AudioRecorder.start_recording`: sets `self.is_recording = True` and starts
the `run` thread. -/
def AudioRecorder.start_recording (r : AudioRecorder) : AudioRecorder :=
  { r with is_recording := true, thread_active := true }

/-- `AudioRecorder.stop_recording`: sets `self.is_recording = False`. -/
def AudioRecorder.stop_recording (r : AudioRecorder) : AudioRecorder :=
  { r with is_recording := false }

/-- The tail of `AudioRecorder.run` after the recording loop exits: drain the
queue into `audio_data` in FIFO order and, only `if audio_data:` is nonempty,
emit `self.finished.emit(np.concatenate(audio_data))`.  The returned `Option`
is the at-most-one emission of the run: `none` means no `finished` signal is
ever emitted for this capture (note the source has no `else` branch and no
error signal on the recorder at all). -/
def AudioRecorder.finishRun (r : AudioRecorder) : Option AudioBuffer :=
  if r.audio_queue = [] then none else some r.audio_queue.flatten

/-- Chunk arrivals of one capture in order: a fold of the stream callback. -/
def AudioRecorder.enqueueAll (r : AudioRecorder) (chunks : List AudioChunk) : AudioRecorder :=
  chunks.foldl AudioRecorder.callback r

/-- The list of buffers emitted via the `finished` signal by one `run`
(length 0 or 1 by construction, since `run` executes once and contains a
single `emit`). -/
def AudioRecorder.emittedBuffers (r : AudioRecorder) : List AudioBuffer :=
  match r.finishRun with
  | some b => [b]
  | none => []

/-- Result of `whisper_model.transcribe`: a record with the `"text"` field the
code reads (`transcription["text"]`). -/
structure Transcription where
  text : String
deriving DecidableEq, Repr

/-- One chat message (`{"role": ..., "content": ...}`) of the OpenAI request. -/
structure Message where
  role : String
  content : String
deriving DecidableEq, Repr

/-- The two black-box external services held by `ProcessingThread`: the whisper
model (`transcribe`) and the OpenAI chat-completion client (`chatComplete`, the
content of `response.choices[0].message.content`).  A Python exception with
message `m` is modelled as `.error m` (the handler catches `Exception as e`
and emits `str(e)`). -/
structure Services where
  transcribe : AudioBuffer → Except String Transcription
  chatComplete : List Message → Except String String

/-- The system message of the OpenAI request in `ProcessingThread.run`. -/
def systemMessage : String :=
  "You are a helpful assistant that converts spoken descriptions into detailed MidJourney prompts. Focus on visual details and artistic style."

/-- The user message of the OpenAI request, from the f-string in the source. -/
def userMessage (spoken_text : String) : String :=
  "Convert this description into a detailed MidJourney prompt: " ++ spoken_text

/-- The exact `messages` list `ProcessingThread.run` sends to the chat API. -/
def pipelineMessages (spoken_text : String) : List Message :=
  [{ role := "system", content := systemMessage },
   { role := "user", content := userMessage spoken_text }]

/-- Outcome of one pipeline run, as delivered by the two signals of
`ProcessingThread`: `finished.emit(spoken_text, image_prompt)` or
`error.emit(str(e))`. -/
inductive PipelineOutcome
  | Success (transcript generatedPrompt : String)
  | Failure (errorMessage : String)
deriving DecidableEq, Repr

/-- A call made by `ProcessingThread.run` to an external service. -/
inductive ServiceCall
  | transcribeCall (audio : AudioBuffer)
  | chatCall (messages : List Message)
deriving DecidableEq, Repr

/-- `ProcessingThread.run`, instrumented with the list of external-service
calls it performs, in order.  Mirrors the source: transcribe the buffer, read
`transcription["text"]`, send the two-message chat request, emit
`Success(spoken_text, image_prompt)`; any exception at either step jumps to
the single `except` clause which emits `Failure(str(e))`. -/
def ProcessingThread.runWithTrace (svc : Services) (audio_data : AudioBuffer) :
    PipelineOutcome × List ServiceCall :=
  match svc.transcribe audio_data with
  | .error e => (.Failure e, [.transcribeCall audio_data])
  | .ok transcription =>
    let spoken_text := transcription.text
    match svc.chatComplete (pipelineMessages spoken_text) with
    | .error e =>
      (.Failure e, [.transcribeCall audio_data, .chatCall (pipelineMessages spoken_text)])
    | .ok image_prompt =>
      (.Success spoken_text image_prompt,
       [.transcribeCall audio_data, .chatCall (pipelineMessages spoken_text)])

/-- `ProcessingThread.run`: the delivered outcome alone. -/
def ProcessingThread.run (svc : Services) (audio_data : AudioBuffer) : PipelineOutcome :=
  (ProcessingThread.runWithTrace svc audio_data).1

/-- Which page the `QStackedWidget` currently shows. -/
inductive WidgetView
  | recordingWidget
  | artDisplay
deriving DecidableEq, Repr

/-- The currently open modal dialog, if any: the instruction dialog of
`submit_to_midjourney` (holding the two strings it was invoked with) or the
`QMessageBox.critical` of `show_error` (holding the message). -/
inductive DialogState
  | closed
  | promptDialog (transcript generatedPrompt : String)
  | errorDialog (msg : String)
deriving DecidableEq, Repr

/-- The controller state: the `MainWindow` fields the core touches.
`recorder` is `self.recorder`, `processing` is the buffer held by a live
`self.processing_thread` (`none` when no processing thread is running),
`art_image` is the byte buffer last passed to `ArtDisplayWidget.set_image`
(the PIL decode is presentational and out of scope), `clipboard` the text
last placed via `QApplication.clipboard().setText`. -/
structure MainWindow where
  is_recording : Bool
  recorder : Option AudioRecorder
  processing : Option AudioBuffer
  dialog : DialogState
  current_widget : WidgetView
  record_button_text : String
  record_button_visible : Bool
  loading_visible : Bool
  clipboard : Option String
  art_image : Option (List Nat)
deriving DecidableEq, Repr

/-- The record-button caption in the idle interface. -/
def startButtonText : String := "Press Space to Start Recording"

/-- The record-button caption while recording. -/
def stopButtonText : String := "Press Space to Stop Recording"

/-- The controller state right after `init_ui`: not recording, no recorder,
no processing thread, recording view shown, loading animation hidden. -/
def MainWindow.init_state : MainWindow :=
  { is_recording := false
    recorder := none
    processing := none
    dialog := .closed
    current_widget := .recordingWidget
    record_button_text := startButtonText
    record_button_visible := true
    loading_visible := false
    clipboard := none
    art_image := none }

/-- `MainWindow.start_recording`: set the stop caption, set
`self.is_recording = True`, create a fresh `AudioRecorder`, connect its
`finished` signal to `process_audio`, and call its `start_recording`. -/
def MainWindow.start_recording (s : MainWindow) : MainWindow :=
  { s with record_button_text := stopButtonText
           is_recording := true
           recorder := some (AudioRecorder.mk0.start_recording) }

/-- `MainWindow.stop_recording`: show the processing caption, hide the button,
show the loading animation, set `self.is_recording = False`, and `if
self.recorder:` call its `stop_recording`. -/
def MainWindow.stop_recording (s : MainWindow) : MainWindow :=
  { s with record_button_text := "Processing..."
           record_button_visible := false
           loading_visible := true
           is_recording := false
           recorder := s.recorder.map AudioRecorder.stop_recording }

/-- `MainWindow.toggle_recording`: branch on `self.is_recording` only. -/
def MainWindow.toggle_recording (s : MainWindow) : MainWindow :=
  if s.is_recording then s.stop_recording else s.start_recording

/-- `MainWindow.process_audio(audio_data)`: create a `ProcessingThread` over
the buffer with the two service handles, connect `finished` / `error`, and
start it. -/
def MainWindow.process_audio (s : MainWindow) (audio_data : AudioBuffer) : MainWindow :=
  { s with processing := some audio_data }

/-- `MainWindow.show_error(error_message)`: hide the loading animation, show
the record button with its idle caption, and open a critical message box with
the message. -/
def MainWindow.show_error (s : MainWindow) (error_message : String) : MainWindow :=
  { s with loading_visible := false
           record_button_visible := true
           record_button_text := startButtonText
           dialog := .errorDialog error_message }

/-- `ArtDisplayWidget.set_image(image_data)`: store the image decoded from
exactly the supplied bytes (`Image.open(BytesIO(image_data))`). -/
def ArtDisplayWidget.set_image (s : MainWindow) (image_data : List Nat) : MainWindow :=
  { s with art_image := some image_data }

/-- Head of `MainWindow.submit_to_midjourney(transcription, prompt)`: put
`f"/imagine {prompt}"` on the clipboard and open the modal instruction
dialog. -/
def MainWindow.submit_to_midjourney (s : MainWindow) (transcription prompt : String) :
    MainWindow :=
  { s with clipboard := some ("/imagine " ++ prompt)
           dialog := .promptDialog transcription prompt }

/-- The accept-with-file branch of `submit_to_midjourney` (the user clicked
"Select Image" and the file dialog returned a name): read the bytes, call
`set_image`, switch the stacked widget to the art display, and reset the
recording interface. -/
def MainWindow.acceptImage (s : MainWindow) (image_data : List Nat) : MainWindow :=
  { ArtDisplayWidget.set_image s image_data with
      current_widget := .artDisplay
      loading_visible := false
      record_button_visible := true
      record_button_text := startButtonText
      dialog := .closed }

/-- Events the controller can receive: the space-key / button toggle, the
asynchronous completions of the two background threads (a chunk delivered by
the stream callback, the recorder thread finishing, the processing thread
finishing), and the resolutions of the modal instruction dialog
(`imageChosen (some bytes)` = "Select Image" then a file picked,
`imageChosen none` = "Select Image" then the picker cancelled,
`dialogCancelled` = the "Cancel" button) and of the error box. -/
inductive Event
  | toggleRecording
  | audioChunk (c : AudioChunk)
  | captureDone
  | pipelineDone
  | imageChosen (file : Option (List Nat))
  | dialogCancelled
  | errorAcknowledged
deriving DecidableEq, Repr

/-- One step of the application.  Each event carries the physical guard under
which it can occur at all (a chunk needs an open stream, a thread completion
needs a live thread, a dialog resolution needs that dialog open; key events are
blocked while a modal dialog is open); when the guard fails the event cannot
happen and the state is unchanged.  An overwritten `self.recorder` /
`self.processing_thread` reference drops the pending completion of the
replaced thread; this only under-reports effects of sequences the
specification already rules out. -/
def step (svc : Services) (s : MainWindow) : Event → MainWindow
  | .toggleRecording =>
    if s.dialog = .closed then s.toggle_recording else s
  | .audioChunk c =>
    match s.recorder with
    | some r => if r.thread_active && r.is_recording
                then { s with recorder := some (r.callback c) } else s
    | none => s
  | .captureDone =>
    match s.recorder with
    | some r =>
      if r.thread_active && !r.is_recording then
        let s1 := { s with recorder := some { r with thread_active := false } }
        match r.finishRun with
        | some buf => s1.process_audio buf
        | none => s1
      else s
    | none => s
  | .pipelineDone =>
    match s.processing with
    | some buf =>
      let s1 := { s with processing := none }
      match ProcessingThread.run svc buf with
      | .Success t p => s1.submit_to_midjourney t p
      | .Failure m => s1.show_error m
    | none => s
  | .imageChosen file =>
    match s.dialog with
    | .promptDialog _ _ =>
      match file with
      | some image_data => s.acceptImage image_data
      | none => ({ s with dialog := .closed }).show_error "No image selected"
    | _ => s
  | .dialogCancelled =>
    match s.dialog with
    | .promptDialog _ _ => ({ s with dialog := .closed }).show_error "Operation cancelled"
    | _ => s
  | .errorAcknowledged =>
    match s.dialog with
    | .errorDialog _ => { s with dialog := .closed }
    | _ => s

/-- Whether a capture background unit is live: `self.recorder` exists and its
`run` thread has not returned. -/
def captureActive (s : MainWindow) : Bool :=
  match s.recorder with
  | some r => r.thread_active
  | none => false

/-- Whether a pipeline background unit is live. -/
def pipelineActive (s : MainWindow) : Bool :=
  s.processing.isSome

/-- The specification's session phases. -/
inductive Phase
  | Idle
  | Recording
  | Processing
  | AwaitingExternalResult
  | Displaying
  | Error
deriving DecidableEq, Repr

/-- The phase of a controller state, read off the code's own observables: the
open modal dialog (error box = `Error`, instruction dialog =
`AwaitingExternalResult`), else `self.is_recording` (= `Recording`), else a
live background thread (= `Processing`), else the art page being shown
(= `Displaying`), else `Idle`. -/
def phase (s : MainWindow) : Phase :=
  match s.dialog with
  | .errorDialog _ => .Error
  | .promptDialog _ _ => .AwaitingExternalResult
  | .closed =>
    if s.is_recording then .Recording
    else if captureActive s || pipelineActive s then .Processing
    else if s.current_widget = .artDisplay then .Displaying
    else .Idle

/-- The events the specification's transition table declares valid in the
current phase (everything else is, per the specification, to be ignored). -/
def specValid (s : MainWindow) : Event → Bool
  | .toggleRecording => decide (phase s = .Idle) || decide (phase s = .Recording)
  | .audioChunk _ =>
    match s.recorder with
    | some r => r.thread_active && r.is_recording
    | none => false
  | .captureDone => captureActive s && decide (phase s = .Processing)
  | .pipelineDone => pipelineActive s && decide (phase s = .Processing)
  | .imageChosen _ => decide (phase s = .AwaitingExternalResult)
  | .dialogCancelled => decide (phase s = .AwaitingExternalResult)
  | .errorAcknowledged => decide (phase s = .Error)

/-- Run a list of events through the step function. -/
def runEvents (svc : Services) (s : MainWindow) : List Event → MainWindow
  | [] => s
  | e :: es => runEvents svc (step svc s e) es

/-- Every event of the list is specification-valid at the state it hits. -/
def allValid (svc : Services) (s : MainWindow) : List Event → Bool
  | [] => true
  | e :: es => specValid s e && allValid svc (step svc s e) es

/-- Unfolding of `phase` when no modal dialog is open. -/
theorem phase_closed (s : MainWindow) (hd : s.dialog = .closed) :
    phase s = if s.is_recording then Phase.Recording
      else if captureActive s || pipelineActive s then Phase.Processing
      else if s.current_widget = .artDisplay then Phase.Displaying
      else Phase.Idle := by
  unfold phase
  rw [hd]

/-- A state in phase `Idle` has no dialog open, is not recording, and has no
live background unit. -/
theorem phase_Idle_elim {s : MainWindow} (h : phase s = .Idle) :
    s.dialog = .closed ∧ s.is_recording = false ∧ captureActive s = false ∧
    pipelineActive s = false := by
  cases hd : s.dialog
  case closed =>
    rw [phase_closed s hd] at h
    by_cases hr : s.is_recording = true
    · simp [hr] at h
    · by_cases hcp : (captureActive s || pipelineActive s) = true
      · simp [hr, hcp] at h
      · simp only [Bool.or_eq_true, not_or] at hcp
        exact ⟨rfl, by simpa using hr, by simpa using hcp.1, by simpa using hcp.2⟩
  case promptDialog t p => simp [phase, hd] at h
  case errorDialog m => simp [phase, hd] at h

/-- A state in phase `Recording` has no dialog open and `is_recording` set. -/
theorem phase_Recording_elim {s : MainWindow} (h : phase s = .Recording) :
    s.dialog = .closed ∧ s.is_recording = true := by
  cases hd : s.dialog
  case closed =>
    rw [phase_closed s hd] at h
    by_cases hr : s.is_recording = true
    · exact ⟨rfl, hr⟩
    · by_cases hcp : (captureActive s || pipelineActive s) = true
      · simp [hr, hcp] at h
      · by_cases hw : s.current_widget = .artDisplay <;> simp [hr, hcp, hw] at h
  case promptDialog t p => simp [phase, hd] at h
  case errorDialog m => simp [phase, hd] at h

/-- A state in phase `Processing` has no dialog open, is not recording, and
has a live background unit. -/
theorem phase_Processing_elim {s : MainWindow} (h : phase s = .Processing) :
    s.dialog = .closed ∧ s.is_recording = false ∧
    (captureActive s || pipelineActive s) = true := by
  cases hd : s.dialog
  case closed =>
    rw [phase_closed s hd] at h
    by_cases hr : s.is_recording = true
    · simp [hr] at h
    · by_cases hcp : (captureActive s || pipelineActive s) = true
      · exact ⟨rfl, by simpa using hr, hcp⟩
      · by_cases hw : s.current_widget = .artDisplay <;> simp [hr, hcp, hw] at h
  case promptDialog t p => simp [phase, hd] at h
  case errorDialog m => simp [phase, hd] at h

/-- A state in phase `Displaying` has no dialog open, is not recording, has no
live background unit, and shows the art page. -/
theorem phase_Displaying_elim {s : MainWindow} (h : phase s = .Displaying) :
    s.dialog = .closed ∧ s.is_recording = false ∧ captureActive s = false ∧
    pipelineActive s = false ∧ s.current_widget = .artDisplay := by
  cases hd : s.dialog
  case closed =>
    rw [phase_closed s hd] at h
    by_cases hr : s.is_recording = true
    · simp [hr] at h
    · by_cases hcp : (captureActive s || pipelineActive s) = true
      · simp [hr, hcp] at h
      · by_cases hw : s.current_widget = .artDisplay
        · simp only [Bool.or_eq_true, not_or] at hcp
          exact ⟨rfl, by simpa using hr, by simpa using hcp.1, by simpa using hcp.2, hw⟩
        · simp [hr, hcp, hw] at h
  case promptDialog t p => simp [phase, hd] at h
  case errorDialog m => simp [phase, hd] at h

/-- A state in phase `AwaitingExternalResult` has the instruction dialog open. -/
theorem phase_Awaiting_elim {s : MainWindow} (h : phase s = .AwaitingExternalResult) :
    ∃ t p, s.dialog = .promptDialog t p := by
  cases hd : s.dialog
  case closed =>
    rw [phase_closed s hd] at h
    by_cases hr : s.is_recording = true
    · simp [hr] at h
    · by_cases hcp : (captureActive s || pipelineActive s) = true
      · simp [hr, hcp] at h
      · by_cases hw : s.current_widget = .artDisplay <;> simp [hr, hcp, hw] at h
  case promptDialog t p => exact ⟨t, p, rfl⟩
  case errorDialog m => simp [phase, hd] at h

/-- A state in phase `Error` has the error box open. -/
theorem phase_Error_elim {s : MainWindow} (h : phase s = .Error) :
    ∃ m, s.dialog = .errorDialog m := by
  cases hd : s.dialog
  case closed =>
    rw [phase_closed s hd] at h
    by_cases hr : s.is_recording = true
    · simp [hr] at h
    · by_cases hcp : (captureActive s || pipelineActive s) = true
      · simp [hr, hcp] at h
      · by_cases hw : s.current_widget = .artDisplay <;> simp [hr, hcp, hw] at h
  case promptDialog t p => simp [phase, hd] at h
  case errorDialog m => exact ⟨m, rfl⟩

/-- When the instruction dialog is open the phase is `AwaitingExternalResult`. -/
theorem phase_of_promptDialog {s : MainWindow} {t p : String}
    (h : s.dialog = .promptDialog t p) : phase s = .AwaitingExternalResult := by
  unfold phase
  rw [h]

/-- When the error box is open the phase is `Error`. -/
theorem phase_of_errorDialog {s : MainWindow} {m : String}
    (h : s.dialog = .errorDialog m) : phase s = .Error := by
  unfold phase
  rw [h]

/-- The single-writer invariant of the controller, maintained along every
specification-valid event sequence: the two background units are never
simultaneously live, a live pipeline implies recording is off, an open
instruction dialog implies a fully quiescent background, and the recorder
flag mirrors the window flag. -/
def SessionInv (s : MainWindow) : Prop :=
  (captureActive s = false ∨ pipelineActive s = false) ∧
  (pipelineActive s = true → s.is_recording = false) ∧
  (∀ t p, s.dialog = .promptDialog t p →
      s.is_recording = false ∧ captureActive s = false ∧ s.processing = none) ∧
  (∀ r, s.recorder = some r → r.is_recording = s.is_recording)

theorem SessionInv_init : SessionInv MainWindow.init_state := by
  unfold SessionInv
  refine ⟨?_, ?_, ?_, ?_⟩ <;>
    simp [MainWindow.init_state, captureActive, pipelineActive]

theorem SessionInv_step (svc : Services) (s : MainWindow) (e : Event)
    (hInv : SessionInv s) (hv : specValid s e = true) : SessionInv (step svc s e) := by
  obtain ⟨h1, h2, h3, h4⟩ := hInv
  cases e
  case toggleRecording =>
    simp only [specValid, Bool.or_eq_true, decide_eq_true_eq] at hv
    rcases hv with hIdle | hRec
    · obtain ⟨hd, hr, hc, hp⟩ := phase_Idle_elim hIdle
      have hstep : step svc s .toggleRecording = s.start_recording := by
        simp [step, hd, MainWindow.toggle_recording, hr]
      rw [hstep]
      unfold SessionInv
      refine ⟨?_, ?_, ?_, ?_⟩
      · right
        simpa [MainWindow.start_recording, pipelineActive] using hp
      · intro hpa
        have : pipelineActive s = true := by
          simpa [MainWindow.start_recording, pipelineActive] using hpa
        rw [hp] at this
        exact absurd this (by simp)
      · intro t p hdlg
        simp [MainWindow.start_recording] at hdlg
        rw [hd] at hdlg
        exact absurd hdlg (by simp)
      · intro r hrec
        simp only [MainWindow.start_recording, Option.some.injEq] at hrec ⊢
        rw [← hrec]
        rfl
    · obtain ⟨hd, hr⟩ := phase_Recording_elim hRec
      have hstep : step svc s .toggleRecording = s.stop_recording := by
        simp [step, hd, MainWindow.toggle_recording, hr]
      rw [hstep]
      have hpip : pipelineActive s = false := by
        by_cases hq : pipelineActive s = true
        · rw [h2 hq] at hr
          exact absurd hr (by simp)
        · simpa using hq
      unfold SessionInv
      refine ⟨?_, ?_, ?_, ?_⟩
      · right
        simpa [MainWindow.stop_recording, pipelineActive] using hpip
      · intro hpa
        have : pipelineActive s = true := by
          simpa [MainWindow.stop_recording, pipelineActive] using hpa
        rw [hpip] at this
        exact absurd this (by simp)
      · intro t p hdlg
        simp [MainWindow.stop_recording] at hdlg
        rw [hd] at hdlg
        exact absurd hdlg (by simp)
      · intro r hrec
        simp only [MainWindow.stop_recording] at hrec ⊢
        cases hro : s.recorder with
        | none => rw [hro] at hrec; exact absurd hrec (by simp)
        | some r0 =>
          rw [hro] at hrec
          simp only [Option.map_some', Option.some.injEq] at hrec
          rw [← hrec]
          rfl
  case audioChunk c =>
    simp only [specValid] at hv
    cases hro : s.recorder with
    | none => rw [hro] at hv; exact absurd hv (by simp)
    | some r =>
      rw [hro] at hv
      simp only [Bool.and_eq_true] at hv
      obtain ⟨hta, hri⟩ := hv
      have hstep : step svc s (.audioChunk c) =
          { s with recorder := some (r.callback c) } := by
        simp [step, hro, hta, hri]
      rw [hstep]
      have hcap : captureActive s = true := by simp [captureActive, hro, hta]
      have hpip : pipelineActive s = false := by
        rcases h1 with h | h
        · rw [hcap] at h; exact absurd h (by simp)
        · exact h
      unfold SessionInv
      refine ⟨?_, ?_, ?_, ?_⟩
      · right
        simpa [pipelineActive] using hpip
      · intro hpa
        have : pipelineActive s = true := by simpa [pipelineActive] using hpa
        rw [hpip] at this
        exact absurd this (by simp)
      · intro t p hdlg
        simp only at hdlg
        obtain ⟨_, hcf, _⟩ := h3 t p hdlg
        rw [hcap] at hcf
        exact absurd hcf (by simp)
      · intro r2 hrec
        simp only [Option.some.injEq] at hrec
        rw [← hrec]
        have := h4 r hro
        simpa [AudioRecorder.callback] using this
  case captureDone =>
    simp only [specValid, Bool.and_eq_true, decide_eq_true_eq] at hv
    obtain ⟨hcap, hPhase⟩ := hv
    obtain ⟨hd, hr, _⟩ := phase_Processing_elim hPhase
    cases hro : s.recorder with
    | none => simp [captureActive, hro] at hcap
    | some r =>
      have hta : r.thread_active = true := by simpa [captureActive, hro] using hcap
      have hri : r.is_recording = false := by rw [h4 r hro]; exact hr
      have hpip : pipelineActive s = false := by
        rcases h1 with h | h
        · rw [hcap] at h; exact absurd h (by simp)
        · exact h
      cases hf : r.finishRun with
      | some buf =>
        have hstep : step svc s .captureDone =
            { s with recorder := some { r with thread_active := false },
                     processing := some buf } := by
          simp [step, hro, hta, hri, hf, MainWindow.process_audio]
        rw [hstep]
        unfold SessionInv
        refine ⟨?_, ?_, ?_, ?_⟩
        · left; rfl
        · intro _; exact hr
        · intro t p hdlg
          have hdlg2 : s.dialog = .promptDialog t p := hdlg
          rw [hd] at hdlg2
          exact absurd hdlg2 (by simp)
        · intro r2 hrec
          have hrec2 : some ({ r with thread_active := false } : AudioRecorder) = some r2 := hrec
          injection hrec2 with h5
          rw [← h5]
          exact hri.trans hr.symm
      | none =>
        have hstep : step svc s .captureDone =
            { s with recorder := some { r with thread_active := false } } := by
          simp [step, hro, hta, hri, hf]
        rw [hstep]
        unfold SessionInv
        refine ⟨?_, ?_, ?_, ?_⟩
        · left; rfl
        · intro _; exact hr
        · intro t p hdlg
          have hdlg2 : s.dialog = .promptDialog t p := hdlg
          rw [hd] at hdlg2
          exact absurd hdlg2 (by simp)
        · intro r2 hrec
          have hrec2 : some ({ r with thread_active := false } : AudioRecorder) = some r2 := hrec
          injection hrec2 with h5
          rw [← h5]
          exact hri.trans hr.symm
  case pipelineDone =>
    simp only [specValid, Bool.and_eq_true, decide_eq_true_eq] at hv
    obtain ⟨hpa, hPhase⟩ := hv
    obtain ⟨hd, hr, _⟩ := phase_Processing_elim hPhase
    cases hq : s.processing with
    | none => simp [pipelineActive, hq] at hpa
    | some buf =>
      have hcap : captureActive s = false := by
        rcases h1 with h | h
        · exact h
        · rw [hpa] at h; exact absurd h (by simp)
      cases ho : ProcessingThread.run svc buf with
      | Success t p =>
        have hstep : step svc s .pipelineDone =
            ({ s with processing := none }).submit_to_midjourney t p := by
          simp [step, hq, ho]
        rw [hstep]
        unfold SessionInv
        refine ⟨?_, ?_, ?_, ?_⟩
        · left; exact hcap
        · intro _; exact hr
        · intro t2 p2 _
          exact ⟨hr, hcap, rfl⟩
        · intro r2 hrec
          exact h4 r2 hrec
      | Failure m =>
        have hstep : step svc s .pipelineDone =
            ({ s with processing := none }).show_error m := by
          simp [step, hq, ho]
        rw [hstep]
        unfold SessionInv
        refine ⟨?_, ?_, ?_, ?_⟩
        · left; exact hcap
        · intro _; exact hr
        · intro t2 p2 hdlg
          have hdlg2 : DialogState.errorDialog m = .promptDialog t2 p2 := hdlg
          exact absurd hdlg2 (by simp)
        · intro r2 hrec
          exact h4 r2 hrec
  case imageChosen file =>
    simp only [specValid, decide_eq_true_eq] at hv
    obtain ⟨t, p, hdlg⟩ := phase_Awaiting_elim hv
    obtain ⟨hr, hcap, hnone⟩ := h3 t p hdlg
    cases file with
    | some image_data =>
      have hstep : step svc s (.imageChosen (some image_data)) = s.acceptImage image_data := by
        simp [step, hdlg]
      rw [hstep]
      unfold SessionInv
      refine ⟨?_, ?_, ?_, ?_⟩
      · left; exact hcap
      · intro _; exact hr
      · intro t2 p2 hdlg2
        have hdlg3 : DialogState.closed = .promptDialog t2 p2 := hdlg2
        exact absurd hdlg3 (by simp)
      · intro r2 hrec
        exact h4 r2 hrec
    | none =>
      have hstep : step svc s (.imageChosen none) =
          ({ s with dialog := .closed }).show_error "No image selected" := by
        simp [step, hdlg]
      rw [hstep]
      unfold SessionInv
      refine ⟨?_, ?_, ?_, ?_⟩
      · left; exact hcap
      · intro _; exact hr
      · intro t2 p2 hdlg2
        have hdlg3 : DialogState.errorDialog "No image selected" = .promptDialog t2 p2 := hdlg2
        exact absurd hdlg3 (by simp)
      · intro r2 hrec
        exact h4 r2 hrec
  case dialogCancelled =>
    simp only [specValid, decide_eq_true_eq] at hv
    obtain ⟨t, p, hdlg⟩ := phase_Awaiting_elim hv
    obtain ⟨hr, hcap, hnone⟩ := h3 t p hdlg
    have hstep : step svc s .dialogCancelled =
        ({ s with dialog := .closed }).show_error "Operation cancelled" := by
      simp [step, hdlg]
    rw [hstep]
    unfold SessionInv
    refine ⟨?_, ?_, ?_, ?_⟩
    · left; exact hcap
    · intro _; exact hr
    · intro t2 p2 hdlg2
      have hdlg3 : DialogState.errorDialog "Operation cancelled" = .promptDialog t2 p2 := hdlg2
      exact absurd hdlg3 (by simp)
    · intro r2 hrec
      exact h4 r2 hrec
  case errorAcknowledged =>
    simp only [specValid, decide_eq_true_eq] at hv
    obtain ⟨m, hdlg⟩ := phase_Error_elim hv
    have hstep : step svc s .errorAcknowledged = { s with dialog := .closed } := by
      simp [step, hdlg]
    rw [hstep]
    unfold SessionInv
    refine ⟨?_, ?_, ?_, ?_⟩
    · exact h1
    · exact h2
    · intro t2 p2 hdlg2
      have hdlg3 : DialogState.closed = .promptDialog t2 p2 := hdlg2
      exact absurd hdlg3 (by simp)
    · intro r2 hrec
      exact h4 r2 hrec

/-- The invariant holds after any specification-valid event sequence. -/
theorem SessionInv_runEvents (svc : Services) (es : List Event) (s : MainWindow)
    (h : SessionInv s) (hv : allValid svc s es = true) :
    SessionInv (runEvents svc s es) := by
  induction es generalizing s with
  | nil => exact h
  | cons e es ih =>
    simp only [allValid, Bool.and_eq_true] at hv
    exact ih (step svc s e) (SessionInv_step svc s e h hv.1) hv.2

/-- Demonstration services realizing the specification scenario: transcription
yields the red-fox sentence, prompt synthesis the decorated prompt. -/
def svcDemo : Services :=
  { transcribe := fun _ => .ok { text := "a red fox in a forest" }
    chatComplete := fun _ => .ok "a red fox in a forest, oil painting, dramatic lighting" }

/-- Demonstration services whose transcription step raises. -/
def svcFail : Services :=
  { transcribe := fun _ => .error "model unavailable"
    chatComplete := fun _ => .ok "unused" }

/-- A full valid happy-path run up to the instruction dialog. -/
def awaitEvents : List Event :=
  [.toggleRecording, .audioChunk [1], .toggleRecording, .captureDone, .pipelineDone]

/-- The state awaiting the external image at the end of `awaitEvents`. -/
def awaitState : MainWindow := runEvents svcDemo MainWindow.init_state awaitEvents

/-- A valid run up to (but excluding) pipeline completion. -/
def pipeReadyEvents : List Event :=
  [.toggleRecording, .audioChunk [1], .toggleRecording, .captureDone]

/-- A state with the processing thread live over buffer `[1]`. -/
def pipeReadyState : MainWindow := runEvents svcDemo MainWindow.init_state pipeReadyEvents

/-- The same processing-phase state, prepared with the failing services. -/
def pipeFailState : MainWindow := runEvents svcFail MainWindow.init_state pipeReadyEvents

/-- A state in the `Processing` phase while the recorder thread still drains. -/
def procState : MainWindow :=
  runEvents svcDemo MainWindow.init_state [.toggleRecording, .audioChunk [0], .toggleRecording]

/-- The state after start, immediate stop with zero chunks, and the recorder
thread running to completion. -/
def emptyStopState : MainWindow :=
  runEvents svcDemo MainWindow.init_state [.toggleRecording, .toggleRecording, .captureDone]

/-- The state showing the externally provided image `[7, 8]`. -/
def displayingState : MainWindow := step svcDemo awaitState (.imageChosen (some [7, 8]))

/-- C1: the claim fails on the code.  In the reachable `Processing`-phase state
`procState`, issuing `toggleRecording` is not a no-op: `toggle_recording` tests
only `self.is_recording` (which is already false), so it calls
`start_recording`, flipping `is_recording`, creating and starting a fresh
`AudioRecorder`, and rewriting the button caption — while the previous
background work is still in flight.  (The button is hidden during `Processing`,
but `keyPressEvent` still routes the space key to `toggle_recording`
unconditionally.) -/
theorem toggle_in_processing_starts_new_capture :
    phase procState = .Processing ∧
    step svcDemo procState .toggleRecording ≠ procState ∧
    (step svcDemo procState .toggleRecording).is_recording = true ∧
    (step svcDemo procState .toggleRecording).recorder =
      some (AudioRecorder.mk0.start_recording) ∧
    (step svcDemo procState .toggleRecording).record_button_text = stopButtonText := by
  decide

/-- C2: the claim fails on the code.  After `startRecording` and an immediate
`stopRecording` with zero collected chunks, `AudioRecorder.run` reaches its
`if audio_data:` guard with an empty list and simply returns: no `finished`
signal, no error signal (none exists on the recorder), so no
`EmptyCaptureError`, no transition to `Error` — the empty capture is silently
dropped and the interface stays stuck in the processing display (loading
animation shown, record button hidden). -/
theorem empty_capture_emits_nothing :
    AudioRecorder.finishRun
      { audio_queue := [], is_recording := false, thread_active := true } = none ∧
    phase emptyStopState ≠ .Error ∧
    phase emptyStopState = .Idle ∧
    emptyStopState.dialog = .closed ∧
    emptyStopState.loading_visible = true ∧
    emptyStopState.record_button_visible = false ∧
    pipelineActive emptyStopState = false := by
  decide

/-- C3: along every specification-valid event sequence from the initial state,
the capture background unit and the pipeline background unit are never live at
the same instant.  (That at most one `AudioRecorder` instance and one
`ProcessingThread` run exist at a time is structural in the embedding: the
controller holds a single `recorder` and a single `processing` slot, exactly as
the source holds single `self.recorder` / `self.processing_thread`
references.) -/
theorem capture_pipeline_mutually_exclusive (svc : Services) (es : List Event)
    (hv : allValid svc MainWindow.init_state es = true) :
    ¬ (captureActive (runEvents svc MainWindow.init_state es) = true ∧
       pipelineActive (runEvents svc MainWindow.init_state es) = true) := by
  have h := SessionInv_runEvents svc es MainWindow.init_state SessionInv_init hv
  rintro ⟨hc, hp⟩
  rcases h.1 with h | h
  · rw [hc] at h
    exact absurd h (by simp)
  · rw [hp] at h
    exact absurd h (by simp)

theorem capture_pipeline_mutually_exclusive_witness :
    allValid svcDemo MainWindow.init_state awaitEvents = true ∧
    ¬ (captureActive (runEvents svcDemo MainWindow.init_state awaitEvents) = true ∧
       pipelineActive (runEvents svcDemo MainWindow.init_state awaitEvents) = true) :=
  ⟨by decide, capture_pipeline_mutually_exclusive svcDemo awaitEvents (by decide)⟩

/-- C4: when the transcription step fails with message `m`, the pipeline run
delivers exactly `Failure m` (the exception text verbatim), performs exactly
one transcription call and no prompt-synthesis call (short-circuit through the
single `except` clause), and retries nothing. -/
theorem transcription_failure_short_circuits (svc : Services) (audio : AudioBuffer)
    (m : String) (h : svc.transcribe audio = .error m) :
    ProcessingThread.run svc audio = .Failure m ∧
    ProcessingThread.runWithTrace svc audio = (.Failure m, [.transcribeCall audio]) := by
  unfold ProcessingThread.run ProcessingThread.runWithTrace
  rw [h]
  exact ⟨rfl, rfl⟩

theorem transcription_failure_short_circuits_witness :
    svcFail.transcribe [1] = .error "model unavailable" ∧
    ProcessingThread.run svcFail [1] = .Failure "model unavailable" ∧
    ProcessingThread.runWithTrace svcFail [1] =
      (.Failure "model unavailable", [.transcribeCall [1]]) :=
  ⟨rfl, (transcription_failure_short_circuits svcFail [1] "model unavailable" rfl).1,
   (transcription_failure_short_circuits svcFail [1] "model unavailable" rfl).2⟩

/-- C5: when transcription yields spoken text `t` and the chat request built
from `t` yields prompt `p`, the pipeline delivers `Success t p` and its
completion moves a `Processing`-phase session into `AwaitingExternalResult`,
the dialog carrying exactly `t` and `p`. -/
theorem pipeline_success_to_awaiting (svc : Services) (s : MainWindow)
    (buf : AudioBuffer) (t p : String)
    (ht : svc.transcribe buf = .ok { text := t })
    (hp : svc.chatComplete (pipelineMessages t) = .ok p)
    (hb : s.processing = some buf)
    (_hs : phase s = .Processing) :
    ProcessingThread.run svc buf = .Success t p ∧
    phase (step svc s .pipelineDone) = .AwaitingExternalResult ∧
    (step svc s .pipelineDone).dialog = .promptDialog t p := by
  have hrun : ProcessingThread.run svc buf = .Success t p := by
    unfold ProcessingThread.run ProcessingThread.runWithTrace
    rw [ht]
    dsimp only
    rw [hp]
  have hstep : step svc s .pipelineDone =
      ({ s with processing := none }).submit_to_midjourney t p := by
    simp [step, hb, hrun]
  rw [hstep]
  exact ⟨hrun, phase_of_promptDialog rfl, rfl⟩

theorem pipeline_success_to_awaiting_witness :
    svcDemo.transcribe [1] = .ok { text := "a red fox in a forest" } ∧
    phase pipeReadyState = .Processing ∧
    ProcessingThread.run svcDemo [1] =
      .Success "a red fox in a forest"
        "a red fox in a forest, oil painting, dramatic lighting" ∧
    phase (step svcDemo pipeReadyState .pipelineDone) = .AwaitingExternalResult := by
  have h := pipeline_success_to_awaiting svcDemo pipeReadyState [1]
    "a red fox in a forest" "a red fox in a forest, oil painting, dramatic lighting"
    rfl rfl (by decide) (by decide)
  exact ⟨rfl, by decide, h.1, h.2.1⟩

/-- C6: from any state reached by a specification-valid event sequence, if the
session is in `AwaitingExternalResult` then providing image bytes moves it to
`Displaying` and stores exactly those bytes, while providing an image in
`Idle` changes nothing. -/
theorem provideImage_transitions (svc : Services) (s : MainWindow) (bytes : List Nat)
    (es : List Event)
    (hreach : runEvents svc MainWindow.init_state es = s)
    (hv : allValid svc MainWindow.init_state es = true) :
    (phase s = .AwaitingExternalResult →
      phase (step svc s (.imageChosen (some bytes))) = .Displaying ∧
      (step svc s (.imageChosen (some bytes))).art_image = some bytes) ∧
    (phase s = .Idle → step svc s (.imageChosen (some bytes)) = s) := by
  have hInv : SessionInv s := by
    rw [← hreach]
    exact SessionInv_runEvents svc es MainWindow.init_state SessionInv_init hv
  constructor
  · intro hph
    obtain ⟨t, p, hdlg⟩ := phase_Awaiting_elim hph
    obtain ⟨hr, hcap, hnone⟩ := hInv.2.2.1 t p hdlg
    have hstep : step svc s (.imageChosen (some bytes)) = s.acceptImage bytes := by
      simp [step, hdlg]
    rw [hstep]
    refine ⟨?_, rfl⟩
    have e1 : (s.acceptImage bytes).is_recording = false := hr
    have e2 : captureActive (s.acceptImage bytes) = false := hcap
    have e3 : pipelineActive (s.acceptImage bytes) = false := by
      show s.processing.isSome = false
      rw [hnone]
      rfl
    rw [phase_closed (s.acceptImage bytes) rfl, e1, e2, e3]
    simp [MainWindow.acceptImage]
  · intro hph
    obtain ⟨hd, _, _, _⟩ := phase_Idle_elim hph
    simp [step, hd]

theorem provideImage_transitions_witness :
    phase awaitState = .AwaitingExternalResult ∧
    phase (step svcDemo awaitState (.imageChosen (some [7, 8]))) = .Displaying ∧
    (step svcDemo awaitState (.imageChosen (some [7, 8]))).art_image = some [7, 8] := by
  have h := provideImage_transitions svcDemo awaitState [7, 8] awaitEvents rfl (by decide)
  have h2 := h.1 (by decide)
  exact ⟨by decide, h2.1, h2.2⟩

/-- C7 counterexample: in the reachable `Displaying` state the displayed image
is never cleared and the session never returns to `Idle`: the next
`toggleRecording` is accepted directly from `Displaying` and starts recording
with the old image still stored (nothing in the source ever clears
`ArtDisplayWidget.image` or switches the stacked widget back to the recording
page). -/
theorem displaying_next_toggle_keeps_image :
    phase displayingState = .Displaying ∧
    displayingState.art_image = some [7, 8] ∧
    phase (step svcDemo displayingState .toggleRecording) = .Recording ∧
    (step svcDemo displayingState .toggleRecording).art_image = some [7, 8] := by
  decide

/-- C7 amended: from any `Displaying` state the machine accepts
`toggleRecording` again — directly, with no intervening `resetForNext` event
and no pass through `Idle` — starting the next recording cycle while
`displayedImage` is left unchanged (it is not cleared). -/
theorem displaying_accepts_toggle_without_clearing (svc : Services) (s : MainWindow)
    (h : phase s = .Displaying) :
    phase (step svc s .toggleRecording) = .Recording ∧
    (step svc s .toggleRecording).art_image = s.art_image := by
  obtain ⟨hd, hr, _, _, _⟩ := phase_Displaying_elim h
  have hstep : step svc s .toggleRecording = s.start_recording := by
    simp [step, hd, MainWindow.toggle_recording, hr]
  rw [hstep]
  refine ⟨?_, rfl⟩
  rw [phase_closed s.start_recording (show (s.start_recording).dialog = .closed from hd)]
  simp [MainWindow.start_recording]

theorem displaying_accepts_toggle_without_clearing_witness :
    phase displayingState = .Displaying ∧
    phase (step svcDemo displayingState .toggleRecording) = .Recording :=
  ⟨by decide,
   (displaying_accepts_toggle_without_clearing svcDemo displayingState (by decide)).1⟩

/-- How startup can fail: the caught `FileNotFoundError` branch of
`load_config` (message box, then `sys.exit(1)`), or the uncaught `KeyError`
when `config.json` exists but has no `"openai_api_key"` entry (also fatal:
the exception escapes `__init__`). -/
inductive StartupFailure
  | exitCode (code : Nat)
  | uncaughtKeyError
deriving DecidableEq, Repr

/-- `MainWindow.load_config`: open `config.json` (modelled as an optional list
of key/value pairs; `none` = file absent) and read
`config["openai_api_key"]`. -/
def load_config (config_file : Option (List (String × String))) :
    Except StartupFailure String :=
  match config_file with
  | none => .error (.exitCode 1)
  | some config =>
    match config.lookup "openai_api_key" with
    | some key => .ok key
    | none => .error .uncaughtKeyError

/-- Process startup: `MainWindow.__init__` runs `init_ui` then `load_config`
(then `setup_models`).  On a load failure the process dies (exit or uncaught
exception) and the partially built window dies with it, so no controller state
is ever produced; on success the controller starts in `init_state`. -/
def MainWindow.create (config_file : Option (List (String × String))) :
    Except StartupFailure MainWindow :=
  (load_config config_file).map (fun _ => MainWindow.init_state)

/-- The error channels the code does handle: an absent API credential (missing
`config.json`, or a present file without the key) makes startup fail, so no
session is produced; and a runtime pipeline failure never terminates the
process — it is recovered by `show_error` into the `Error` phase carrying the
message. -/
theorem missing_credential_fatal_runtime_recovered
    (config_file : Option (List (String × String)))
    (habsent : (config_file.getD []).lookup "openai_api_key" = none) :
    (∃ err, MainWindow.create config_file = .error err) ∧
    (∀ svc s buf m, s.processing = some buf →
      ProcessingThread.run svc buf = .Failure m →
      phase (step svc s .pipelineDone) = .Error ∧
      (step svc s .pipelineDone).dialog = .errorDialog m) := by
  constructor
  · cases config_file with
    | none => exact ⟨.exitCode 1, rfl⟩
    | some config =>
      refine ⟨.uncaughtKeyError, ?_⟩
      simp only [Option.getD_some] at habsent
      simp [MainWindow.create, load_config, habsent, Except.map]
  · intro svc s buf m hb hrun
    have hstep : step svc s .pipelineDone =
        ({ s with processing := none }).show_error m := by
      simp [step, hb, hrun]
    rw [hstep]
    exact ⟨phase_of_errorDialog rfl, rfl⟩

theorem missing_credential_fatal_runtime_recovered_witness :
    ((none : Option (List (String × String))).getD []).lookup "openai_api_key" = none ∧
    (∃ err, MainWindow.create none = .error err) ∧
    phase (step svcFail pipeFailState .pipelineDone) = .Error := by
  have h := missing_credential_fatal_runtime_recovered none rfl
  exact ⟨rfl, h.1, (h.2 svcFail pipeFailState [1] "model unavailable" (by decide) rfl).1⟩

/-- C8: the first half of the claim holds on the code — with no credential the
startup aborts (`sys.exit(1)` before the window is usable) and no session is
produced, while with a credential startup succeeds — but the universal second
half fails: after the zero-chunk capture (the specification's
`EmptyCaptureError` runtime condition, event sequence
`[toggleRecording, toggleRecording, captureDone]`) the process indeed does not
exit, yet the error is never recovered into the `Error` phase: no signal is
emitted, no error box opens, and the session is left stuck in the processing
display outside `Error`.  (A device error in the capture thread likewise has
no handler: the stream callback only prints `status`.) -/
theorem missing_credential_fatal_but_empty_capture_unrecovered :
    MainWindow.create none = .error (.exitCode 1) ∧
    MainWindow.create (some [("openai_api_key", "k")]) = .ok MainWindow.init_state ∧
    phase emptyStopState ≠ .Error ∧
    emptyStopState.dialog = .closed ∧
    emptyStopState.loading_visible = true ∧
    pipelineActive emptyStopState = false :=
  ⟨rfl, rfl, by decide, by decide, by decide, by decide⟩

/-- C9 counterexample: at the end of the happy-path run the clipboard holds
the `/imagine`-prefixed command, not the bare generated prompt. -/
theorem clipboard_not_bare_prompt :
    awaitState.clipboard =
      some "/imagine a red fox in a forest, oil painting, dramatic lighting" ∧
    awaitState.clipboard ≠
      some "a red fox in a forest, oil painting, dramatic lighting" := by
  decide

/-- C9 amended: after every successful pipeline run the clipboard string is
exactly `"/imagine "` followed by the generated prompt verbatim — the
external tool's command prefix is added, the prompt itself is unaltered. -/
theorem clipboard_imagine_command (svc : Services) (s : MainWindow)
    (buf : AudioBuffer) (t p : String) (hb : s.processing = some buf)
    (hrun : ProcessingThread.run svc buf = .Success t p) :
    (step svc s .pipelineDone).clipboard = some ("/imagine " ++ p) := by
  have hstep : step svc s .pipelineDone =
      ({ s with processing := none }).submit_to_midjourney t p := by
    simp [step, hb, hrun]
  rw [hstep]
  rfl

theorem clipboard_imagine_command_witness :
    (step svcDemo pipeReadyState .pipelineDone).clipboard =
      some ("/imagine " ++ "a red fox in a forest, oil painting, dramatic lighting") :=
  clipboard_imagine_command svcDemo pipeReadyState [1] "a red fox in a forest"
    "a red fox in a forest, oil painting, dramatic lighting" (by decide) rfl

/-- Draining the queue after a capture yields the chunks in arrival order. -/
theorem enqueueAll_queue (r : AudioRecorder) (chunks : List AudioChunk) :
    (r.enqueueAll chunks).audio_queue = r.audio_queue ++ chunks := by
  induction chunks generalizing r with
  | nil => simp [AudioRecorder.enqueueAll]
  | cons c cs ih =>
    show (AudioRecorder.enqueueAll (r.callback c) cs).audio_queue = _
    rw [ih (r.callback c)]
    simp [AudioRecorder.callback]

/-- C10: a capture that received at least one chunk emits its completion
exactly once, carrying the concatenation of all enqueued chunks in FIFO
arrival order (no chunk dropped or duplicated). -/
theorem capture_emits_fifo_concat_once (chunks : List AudioChunk) (h : chunks ≠ []) :
    ((AudioRecorder.mk0.start_recording).enqueueAll chunks).emittedBuffers =
      [chunks.flatten] := by
  have hq : ((AudioRecorder.mk0.start_recording).enqueueAll chunks).audio_queue = chunks := by
    rw [enqueueAll_queue]
    rfl
  unfold AudioRecorder.emittedBuffers AudioRecorder.finishRun
  rw [hq, if_neg h]

theorem capture_emits_fifo_concat_once_witness :
    ([[1, 2], [3]] : List AudioChunk) ≠ [] ∧
    ((AudioRecorder.mk0.start_recording).enqueueAll [[1, 2], [3]]).emittedBuffers =
      [[1, 2, 3]] := by
  refine ⟨by decide, ?_⟩
  have h := capture_emits_fifo_concat_once [[1, 2], [3]] (by decide)
  simpa using h
